import Mathlib

/-!
Shallow embedding of `src/kv-vault/src/client.rs` (Hashicorp vault client):
the `Client` data model, the four secret-store operations with their error
translation, the token-renewal scheduler, and the drop/cancellation lifecycle.

Time is modelled in milliseconds as `Nat`.  The external transport
(`vaultrs`) is out of scope; each operation takes the transport call's
result as an explicit argument (an oracle), exactly at the point where the
Rust code awaits the corresponding `vaultrs` call.
-/

/-- Embeds `vaultrs::error::ClientError`, the transport error type, as used by
`client.rs`: the code matches only on the `APIError { code, errors }` shape
(line 64, line 97); every other shape is handled uniformly, so all the rest is
collapsed into one constructor carrying a message. -/
inductive ClientError where
  | APIError (code : Nat) (errs : List String)
  | Other (msg : String)
deriving DecidableEq, Repr

/-- Modelled from the spec: `crate::error::VaultError` lives in
`src/kv-vault/src/error.rs`, which is not part of the given sources; section 7
of the spec gives the taxonomy `NotFound{namespace, path}`, `TransportError`
wrapping the underlying cause, and `ConfigError` for invalid construction
parameters. -/
inductive VaultError where
  | NotFound («namespace» : String) (path : String)
  | TransportError (cause : ClientError)
  | ConfigError (msg : String)
deriving DecidableEq, Repr

/-- Modelled from the spec: the `From<ClientError> for VaultError` conversion
used by `client.rs` as `e.into()` / `VaultError::from` / `map_err(VaultError::from)`.
Section 7 of the spec says `TransportError` wraps "any other service, protocol,
serialization, or connectivity failure, wrapping the underlying cause"; a
conversion from a bare transport error cannot produce `NotFound` because it has
no namespace or path to put in it. -/
def VaultError.fromClientError (e : ClientError) : VaultError :=
  VaultError.TransportError e

/-- Embeds `vaultrs::client::VaultClientSettings` as constructed at
lines 39-47 of `client.rs` (only the fields the constructor sets). -/
structure VaultClientSettings where
  token : String
  address : String
  ca_certs : List String
  verify : Bool
  version : Nat
  wrapping : Bool
  timeout : Option Nat
deriving DecidableEq, Repr

/-- Modelled from the spec: `crate::config::Config`
(`src/kv-vault/src/config.rs` is not part of the given sources).  Section 6
of the spec lists the configuration bundle
`{token, address, mount/namespace, certs, token_increment_ttl : optional,
token_refresh_interval : optional}`; the field names are the ones `client.rs`
reads at lines 40-54.  `token_refresh_interval` is in milliseconds. -/
structure Config where
  token : String
  addr : String
  certs : List String
  mount : String
  token_increment_ttl : Option String
  token_refresh_interval : Option Nat
deriving DecidableEq, Repr

/-- Embeds `API_VERSION` (line 15 of `client.rs`). -/
def API_VERSION : Nat := 1

/-- Embeds `TOKEN_INCREMENT_TTL` (line 18 of `client.rs`). -/
def TOKEN_INCREMENT_TTL : String := "72h"

/-- Embeds `TOKEN_REFRESH_INTERVAL = Duration::from_secs(60 * 60 * 12)`
(line 19 of `client.rs`), expressed in milliseconds. -/
def TOKEN_REFRESH_INTERVAL : Nat := 1000 * (60 * 60 * 12)

/-- Embeds the `Client` struct (lines 22-29 of `client.rs`).  The
`inner: Arc<VaultClient>` transport handle is represented by the settings it
was built from; the `sender: Arc<Sender<()>>` half of the oneshot channel is
shared state of a lineage of clones and is modelled separately (`Lineage`
below), since its state lives outside any single `Client` value. -/
structure Client where
  settings : VaultClientSettings
  «namespace» : String
  token_increment_ttl : String
  token_refresh_interval : Nat
deriving DecidableEq, Repr

/-- Embeds `Client::read_secret` (lines 62-73 of `client.rs`).  `resp` is the
result of the awaited transport call `vaultrs::kv2::read(inner, namespace, path)`,
already deserialized to the caller's type `D` (the deserialization happens
inside the external `vaultrs` call). -/
def Client.read_secret {D : Type} (c : Client) (path : String)
    (resp : Except ClientError D) : Except VaultError D :=
  match resp with
  | .error (ClientError.APIError code errs) =>
      if code = 404 then
        .error (VaultError.NotFound c.«namespace» path)
      else
        .error (VaultError.fromClientError (ClientError.APIError code errs))
  | .error e => .error (VaultError.fromClientError e)
  | .ok v => .ok v

/-- Embeds `Client::write_secret` (lines 76-84 of `client.rs`): the transport
call's result is mapped with `map_err(VaultError::from)`; `M` stands for
`SecretVersionMetadata`. -/
def Client.write_secret {M : Type} (c : Client) (path : String)
    (resp : Except ClientError M) : Except VaultError M :=
  match resp with
  | .ok m => .ok m
  | .error e => .error (VaultError.fromClientError e)

/-- Embeds `Client::delete_latest` (lines 88-92 of `client.rs`): the transport
call's result is mapped with `map_err(VaultError::from)` — there is no 404
branch here, unlike read and list. -/
def Client.delete_latest (c : Client) (path : String)
    (resp : Except ClientError Unit) : Except VaultError Unit :=
  match resp with
  | .ok _ => .ok ()
  | .error e => .error (VaultError.fromClientError e)

/-- Embeds `Client::list_secrets` (lines 95-106 of `client.rs`): same 404
translation as read, result type `Vec<String>`. -/
def Client.list_secrets (c : Client) (path : String)
    (resp : Except ClientError (List String)) : Except VaultError (List String) :=
  match resp with
  | .error (ClientError.APIError code errs) =>
      if code = 404 then
        .error (VaultError.NotFound c.«namespace» path)
      else
        .error (VaultError.fromClientError (ClientError.APIError code errs))
  | .error e => .error (VaultError.fromClientError e)
  | .ok secret_list => .ok secret_list

/-- Embeds the result of `client.lookup()` —
`vaultrs` self-token lookup response, of which `renew_self` uses
`expire_time : Option<String>` and `accessor : String` (lines 150-151). -/
structure TokenInfo where
  expire_time : Option String
  accessor : String
deriving DecidableEq, Repr

/-- The two transport calls issued by `renew_self` (lines 138-153), in the
order they are awaited; used to record the call trace of one renewal tick. -/
inductive SelfCall where
  | renew (increment : String)
  | lookup
deriving DecidableEq, Repr

/-- Oracle for the two awaited transport calls of one `renew_self` execution:
the result `client.renew(Some(interval))` would produce, and the result
`client.lookup()` would produce. -/
structure SelfTransport where
  renewResult : Except ClientError Unit
  lookupResult : Except ClientError TokenInfo
deriving Repr

/-- Embeds `renew_self` (lines 138-153 of `client.rs`): await
`client.renew(Some(interval))`, propagate its error with `?` after converting
via `VaultError::from`; then await `client.lookup()`, propagate its error the
same way; on success log and return `Ok(())`.  Returns the function's result
paired with the ordered list of transport calls actually issued (the awaits
are sequential: the second call is reached only after the first returned). -/
def renew_self (tr : SelfTransport) (increment : String) :
    Except VaultError Unit × List SelfCall :=
  match tr.renewResult with
  | .error e => (.error (VaultError.fromClientError e), [SelfCall.renew increment])
  | .ok _ =>
      match tr.lookupResult with
      | .error e =>
          (.error (VaultError.fromClientError e), [SelfCall.renew increment, SelfCall.lookup])
      | .ok _ => (.ok (), [SelfCall.renew increment, SelfCall.lookup])

/-- An effect a future can perform when it is actually driven (polled to
completion by an executor).  The body of `run_renewal` performs exactly one:
`tokio::spawn` of the renewal loop task (line 114). -/
inductive FutureAction where
  | spawnRenewalLoop (interval : Nat) (ttl : String)
deriving DecidableEq, Repr

/-- The future value produced by calling the async fn `run_renewal`
(lines 108-129): in Rust an async fn call only constructs a future capturing
its arguments — here the cloned interval and ttl read at lines 110-112 — and
runs none of its body until the future is awaited or spawned. -/
structure RenewalFuture where
  interval : Nat
  ttl : String
deriving DecidableEq, Repr

/-- Embeds calling `Client::run_renewal` (lines 108-129): constructs the
future; the body (the `tokio::spawn` of the loop) is NOT executed by the call
itself. -/
def Client.run_renewal (c : Client) : RenewalFuture :=
  { interval := c.token_refresh_interval, ttl := c.token_increment_ttl }

/-- Driving (awaiting or spawning) a `run_renewal` future executes its body,
whose only effect is `tokio::spawn` of the renewal loop task (line 114). -/
def RenewalFuture.drive (f : RenewalFuture) : List FutureAction :=
  [FutureAction.spawnRenewalLoop f.interval f.ttl]

/-- Embeds `Client::new` (lines 36-59 of `client.rs`).  Builds the
`VaultClientSettings` literal of lines 39-47, fills the `Client` fields with
the config's values and the `unwrap_or` defaults of lines 49-54, then executes
the statement `client.run_renewal(rx);` (line 57).  `run_renewal` is an
async fn and the statement neither awaits nor spawns the returned future, so
the future is dropped at the end of the statement and its body never runs:
the list of future actions driven during `new` is empty.  The fallible
external `VaultClient::new(settings)?` call (a URL/certificate parse, spec
section 7 `ConfigError`) is out of scope and modelled as succeeding; nothing
in `new` before or after it performs any other effect. -/
def Client.new (config : Config) : Client × List FutureAction :=
  let client : Client :=
    { settings :=
        { token := config.token
          address := config.addr
          ca_certs := config.certs
          verify := false
          version := API_VERSION
          wrapping := false
          timeout := none }
      «namespace» := config.mount
      token_increment_ttl := config.token_increment_ttl.getD TOKEN_INCREMENT_TTL
      token_refresh_interval := config.token_refresh_interval.getD TOKEN_REFRESH_INTERVAL }
  let _fut : RenewalFuture := client.run_renewal
  (client, [])

/-- Number of renewal attempts, by elapsed time `t` ms, made by the background
tasks that `Client::new config` actually spawned (none were cancelled and every
transport call is instantaneous): the sum over the driven future actions of the
loop's attempt count. -/
def attemptsAfterNew (config : Config) (t : Nat) : Nat :=
  ((Client.new config).2.map (fun a =>
    match a with
    | FutureAction.spawnRenewalLoop i _ => t / i + 1)).sum

/-- Whether tick number `k` (0-based) of the renewal loop fires, given the time
`cancelAt` (ms after the task started) at which the `reciever` branch of the
`tokio::select!` (lines 116-127) completes and is observed — `none` if
cancellation never fires.  `tokio::time::interval(interval)` completes its
first tick immediately and tick `k` at `k * interval` ms (each renewal call is
instantaneous here); once the receiver branch completes, the select drops the
loop branch, so only ticks strictly before `cancelAt` fire (at a simultaneous
wake the spec allows either branch to win; cancellation winning is the
resolution embedded here). -/
def tickOccurs (interval : Nat) (cancelAt : Option Nat) (k : Nat) : Bool :=
  match cancelAt with
  | none => true
  | some c => decide (k * interval < c)

/-- Whether the spawned select (lines 116-127) is still running at time `t`:
the receiver branch completing at `cancelAt` makes the whole task return
(lines 123-126), and a returned task never runs again. -/
def schedRunning (cancelAt : Option Nat) (t : Nat) : Bool :=
  match cancelAt with
  | none => true
  | some c => decide (t < c)

/-- Count of renewal attempts initiated by the loop (lines 117-122) within
elapsed time `t` ms: tick `k` fires at `k * interval` ms (first tick of
`tokio::time::interval` is immediate), provided cancellation has not been
observed before it.  Tick indices are bounded by `t` since `interval ≥ 1`
forces `k ≤ k * interval`. -/
def attemptsBy (interval : Nat) (cancelAt : Option Nat) (t : Nat) : Nat :=
  (List.range (t + 1)).countP fun k =>
    decide (k * interval ≤ t) && tickOccurs interval cancelAt k

/-- State of the renewal loop (lines 117-122) between iterations: `time` is
when its next `next_interval.tick()` completes, `count` the number of renewal
attempts made so far, `exited` whether the loop has terminated on its own. -/
structure LoopState where
  time : Nat
  count : Nat
  exited : Bool
deriving DecidableEq, Repr

/-- Embeds one iteration of the loop body (lines 118-121):
`next_interval.tick().await;` completes at `st.time`, then
`let _ = renew_self(&client, ttl.as_str()).await;` — the result is bound to
`_` and discarded, so both the `Ok` and the `Err` outcome fall through to the
next iteration with the next tick one interval later. -/
def loopIter (interval : Nat) (renewResult : Except VaultError Unit)
    (st : LoopState) : LoopState :=
  match renewResult with
  | .ok _ => { time := st.time + interval, count := st.count + 1, exited := false }
  | .error _ => { time := st.time + interval, count := st.count + 1, exited := false }

/-- The loop (lines 117-122) after `n` iterations, with `results k` the
outcome of the renewal attempt of iteration `k`: starts with the first tick
due immediately (`tokio::time::interval`'s first tick completes at once) and
no attempts made. -/
def runLoop (interval : Nat) (results : Nat → Except VaultError Unit) :
    Nat → LoopState
  | 0 => { time := 0, count := 0, exited := false }
  | n + 1 => loopIter interval (results n) (runLoop interval results n)

/-- State of the lineage's shared `tokio::sync::oneshot` channel: whether the
single send has happened. -/
structure OneshotState where
  fired : Bool
deriving DecidableEq, Repr

/-- Embeds `Sender::send` on the oneshot channel: consumes the channel's one
send permit — it succeeds iff no send has happened yet, and returns a
`Result` either way (it never panics and never blocks). -/
def oneshotSend (s : OneshotState) : OneshotState × Bool :=
  if s.fired then (s, false) else ({ fired := true }, true)

/-- A lineage of `Client` clones: `#[derive(Clone)]` (line 22) clones the
`Arc`s, so all clones share one `sender: Arc<Sender<()>>` (line 28) and hence
one oneshot channel; `alive` is the number of live handles. -/
structure Lineage where
  alive : Nat
  chan : OneshotState
deriving DecidableEq, Repr

/-- Embeds `impl Drop for Client` (lines 132-136): EVERY handle's drop runs
`let _ = self.sender.send(());` on the shared channel, the `Result` being
discarded — this runs at each clone's drop, not only at the last one's. -/
def dropHandle (l : Lineage) : Lineage :=
  { alive := l.alive - 1, chan := (oneshotSend l.chan).1 }

/-- The lineage after `n` successive handle drops. -/
def dropN (l : Lineage) : Nat → Lineage
  | 0 => l
  | n + 1 => dropHandle (dropN l n)

/-- A concrete client, used to instantiate the theorems below: built by the
constructor from the configuration with mount "secret", a 100 ms refresh
interval and the default increment ttl. -/
def clientSecret : Client :=
  (Client.new
    { token := "t"
      addr := "http://127.0.0.1:8200"
      certs := []
      mount := "secret"
      token_increment_ttl := none
      token_refresh_interval := some 100 }).1

/-- Counting the naturals below `n` that are at most `d`. -/
lemma countP_range_le_eq (d n : Nat) :
    (List.range n).countP (fun k => decide (k ≤ d)) = min (d + 1) n := by
  induction n with
  | zero => simp
  | succ n ih =>
      rw [List.range_succ, List.countP_append, ih, List.countP_cons, List.countP_nil]
      by_cases h : n ≤ d <;> simp [h] <;> omega

/-- A `countP` over `List.range` is unchanged by extending the range past the
last index satisfying the predicate. -/
lemma countP_range_extend (p : Nat → Bool) (m n : Nat) (hmn : m ≤ n)
    (hp : ∀ k, m ≤ k → p k = false) :
    (List.range n).countP p = (List.range m).countP p := by
  induction n with
  | zero => cases Nat.le_zero.mp hmn; rfl
  | succ n ih =>
      rcases Nat.lt_or_ge m (n + 1) with hlt | hge
      · have hmn' : m ≤ n := Nat.lt_succ_iff.mp hlt
        rw [List.range_succ, List.countP_append, ih hmn', List.countP_cons,
          List.countP_nil, hp n hmn']
        simp
      · cases Nat.le_antisymm hmn hge; rfl

/-- Once cancellation is observed at time `c`, the attempt count is frozen at
the number of ticks that fired strictly before `c`. -/
lemma attemptsBy_cancel_eq (interval c t : Nat) (hi : 1 ≤ interval) (hct : c ≤ t) :
    attemptsBy interval (some c) t
      = (List.range c).countP (fun k => decide (k * interval < c)) := by
  unfold attemptsBy
  have hcong : ∀ k ∈ List.range (t + 1),
      ((decide (k * interval ≤ t) && tickOccurs interval (some c) k) = true
        ↔ (decide (k * interval < c)) = true) := by
    intro k _
    simp only [tickOccurs, Bool.and_eq_true, decide_eq_true_eq]
    generalize k * interval = a
    omega
  rw [List.countP_congr hcong]
  refine countP_range_extend _ c (t + 1) (by omega) ?_
  intro k hk
  have hkk : k ≤ k * interval := by
    calc k = k * 1 := by omega
    _ ≤ k * interval := Nat.mul_le_mul_left k hi
  simp only [decide_eq_false_iff_not]
  omega

/-- Claim C3: once the cancellation signal has been observed (the receiver
branch of the `tokio::select!` at lines 116-127 completed at time `c`), the
loop exits even mid-wait and no further renewal attempt is ever initiated:
the attempt count never grows after `c`, every tick that did fire was strictly
before `c`, and the scheduler is never again in the running state. -/
theorem cancel_stops_scheduler (interval c t₁ t₂ : Nat)
    (hi : 1 ≤ interval) (hc : c ≤ t₁) (ht : t₁ ≤ t₂) :
    attemptsBy interval (some c) t₂ = attemptsBy interval (some c) t₁
  ∧ (∀ k, tickOccurs interval (some c) k = true → k * interval < c)
  ∧ (∀ t, c ≤ t → schedRunning (some c) t = false) := by
  refine ⟨?_, ?_, ?_⟩
  · rw [attemptsBy_cancel_eq interval c t₂ hi (Nat.le_trans hc ht),
      attemptsBy_cancel_eq interval c t₁ hi hc]
  · intro k hk
    simpa [tickOccurs] using hk
  · intro t hct
    simp only [schedRunning, decide_eq_false_iff_not]
    omega

/-- Witness for `cancel_stops_scheduler` at interval 100 ms, cancellation
observed at 150 ms: the count is frozen from 200 ms to 1000 ms and the
scheduler is stopped at 365 ms. -/
theorem cancel_stops_scheduler_witness :
    attemptsBy 100 (some 150) 1000 = attemptsBy 100 (some 150) 200
    ∧ schedRunning (some 150) 365 = false := by
  have h := cancel_stops_scheduler 100 150 200 1000 (by decide) (by decide) (by decide)
  exact ⟨h.1, h.2.2 365 (by omega)⟩

set_option maxRecDepth 20000 in
/-- Claim C4, counterexample: with interval 100 ms, a fake transport that
always succeeds and no cancellation, the attempt count after 350 ms is 4, not
3 as the claim states — `tokio::time::interval`'s first tick completes
immediately, so an attempt happens already at time 0 (ticks at 0, 100, 200,
300 ms). -/
theorem ticks_350ms_count :
    attemptsBy 100 none 350 = 4
    ∧ attemptsBy 100 none 350 ≠ 3
    ∧ attemptsBy 100 none 0 = 1 := by
  refine ⟨by decide, by decide, by decide⟩

/-- Claim C4 as amended: the first tick of the renewal loop fires immediately
at time 0, so without cancellation the number of renewal attempts within
elapsed time `t` is `t / interval + 1` — in particular after `N` full
intervals have elapsed, `N + 1` attempts have been made (at times
`0, interval, ..., N * interval`), with no skipped or doubled tick. -/
theorem attempts_formula (interval t : Nat) (hi : 1 ≤ interval) :
    attemptsBy interval none t = t / interval + 1 := by
  unfold attemptsBy
  have hcong : ∀ k ∈ List.range (t + 1),
      ((decide (k * interval ≤ t) && tickOccurs interval none k) = true
        ↔ (decide (k ≤ t / interval)) = true) := by
    intro k _
    simp [tickOccurs, Nat.le_div_iff_mul_le hi]
  rw [List.countP_congr hcong, countP_range_le_eq]
  have := Nat.div_le_self t interval
  omega

/-- Witness for `attempts_formula`: interval 100 ms, elapsed 350 ms gives
`350 / 100 + 1 = 4` attempts. -/
theorem attempts_formula_witness :
    attemptsBy 100 none 350 = 350 / 100 + 1 :=
  attempts_formula 100 350 (by decide)

/-- The loop body treats a failed and a successful renewal identically: the
result of `renew_self` is bound to `_` (line 120) and discarded. -/
lemma loopIter_result_irrelevant (interval : Nat) (r r' : Except VaultError Unit)
    (st : LoopState) : loopIter interval r st = loopIter interval r' st := by
  cases r <;> cases r' <;> rfl

/-- Claim C5: a renewal tick whose transport call fails is swallowed inside
the scheduler — the loop does not exit, the next tick stays exactly one
interval away (no immediate retry, interval unchanged), exactly one attempt
is made per tick, and the whole loop trace is independent of which ticks
failed, so no error is propagated to any caller through the loop's state or
schedule. -/
theorem renewal_failure_swallowed (interval n : Nat) (r : Except VaultError Unit)
    (st : LoopState) (results results' : Nat → Except VaultError Unit) :
    (loopIter interval r st).exited = false
  ∧ (loopIter interval r st).time = st.time + interval
  ∧ (loopIter interval r st).count = st.count + 1
  ∧ runLoop interval results n = runLoop interval results' n := by
  refine ⟨?_, ?_, ?_, ?_⟩
  · cases r <;> rfl
  · cases r <;> rfl
  · cases r <;> rfl
  · induction n with
    | zero => rfl
    | succ n ih =>
        simp only [runLoop, ih]
        exact loopIter_result_irrelevant interval (results n) (results' n) _

/-- Claim C6: in every renewal tick the renew call is issued first; the
self-lookup is issued only after the renew succeeded (a failed renew performs
no lookup); a failed lookup after a successful renew fails the tick but the
renew call stays in the trace (the renewal is not undone); and the call trace
is always one of the two sequential prefixes, never reordered. -/
theorem renew_then_lookup_order (tr : SelfTransport) (inc : String) :
    (renew_self tr inc).2.head? = some (SelfCall.renew inc)
  ∧ ((renew_self tr inc).2 = [SelfCall.renew inc]
      ∨ (renew_self tr inc).2 = [SelfCall.renew inc, SelfCall.lookup])
  ∧ (∀ e, tr.renewResult = Except.error e →
      (renew_self tr inc).2 = [SelfCall.renew inc]
      ∧ (renew_self tr inc).1 = Except.error (VaultError.TransportError e))
  ∧ (∀ e, tr.renewResult = Except.ok () → tr.lookupResult = Except.error e →
      (renew_self tr inc).1 = Except.error (VaultError.TransportError e)
      ∧ SelfCall.renew inc ∈ (renew_self tr inc).2)
  ∧ (∀ info, tr.renewResult = Except.ok () → tr.lookupResult = Except.ok info →
      (renew_self tr inc).1 = Except.ok ()) := by
  obtain ⟨rr, lr⟩ := tr
  cases rr with
  | error e => cases lr <;> simp [renew_self, VaultError.fromClientError]
  | ok u =>
      cases u
      cases lr <;> simp [renew_self, VaultError.fromClientError]

/-- Witness for `renew_then_lookup_order`: renew succeeds, lookup fails —
the tick fails with the wrapped lookup error, yet the renew call was issued. -/
theorem renew_then_lookup_order_witness :
    (renew_self ⟨Except.ok (), Except.error (ClientError.Other "boom")⟩ "72h").1
      = Except.error (VaultError.TransportError (ClientError.Other "boom"))
    ∧ SelfCall.renew "72h"
        ∈ (renew_self ⟨Except.ok (), Except.error (ClientError.Other "boom")⟩ "72h").2 := by
  have h := renew_then_lookup_order
    ⟨Except.ok (), Except.error (ClientError.Other "boom")⟩ "72h"
  have h2 := h.2.2.2.1 (ClientError.Other "boom") rfl rfl
  exact ⟨h2.1, h2.2⟩

/-- Claim C7: `read_secret` and `list_secrets` translate a transport
`APIError` with status 404 into `NotFound` carrying the client's namespace
and the given path, wrap every other transport error as `TransportError`
around the underlying cause, and on transport success return the deserialized
value (read) or the key names (list). -/
theorem read_list_404_translation {D : Type} (c : Client) (path : String)
    (v : D) (xs : List String) (code : Nat) (errs : List String) (msg : String) :
    c.read_secret path (Except.ok v) = Except.ok v
  ∧ c.read_secret path ((Except.error (ClientError.APIError 404 errs)) : Except ClientError D)
      = Except.error (VaultError.NotFound c.«namespace» path)
  ∧ (code ≠ 404 →
      c.read_secret path ((Except.error (ClientError.APIError code errs)) : Except ClientError D)
        = Except.error (VaultError.TransportError (ClientError.APIError code errs)))
  ∧ c.read_secret path ((Except.error (ClientError.Other msg)) : Except ClientError D)
      = Except.error (VaultError.TransportError (ClientError.Other msg))
  ∧ c.list_secrets path (Except.ok xs) = Except.ok xs
  ∧ c.list_secrets path (Except.error (ClientError.APIError 404 errs))
      = Except.error (VaultError.NotFound c.«namespace» path)
  ∧ (code ≠ 404 →
      c.list_secrets path (Except.error (ClientError.APIError code errs))
        = Except.error (VaultError.TransportError (ClientError.APIError code errs)))
  ∧ c.list_secrets path (Except.error (ClientError.Other msg))
      = Except.error (VaultError.TransportError (ClientError.Other msg)) := by
  refine ⟨rfl, ?_, ?_, rfl, rfl, ?_, ?_, rfl⟩
  · simp [Client.read_secret]
  · intro h
    simp [Client.read_secret, h, VaultError.fromClientError]
  · simp [Client.list_secrets]
  · intro h
    simp [Client.list_secrets, h, VaultError.fromClientError]

/-- Witness for `read_list_404_translation`: the concrete client with
namespace "secret", path "db/creds", status 500 as the non-404 error. -/
theorem read_list_404_translation_witness :
    @Client.read_secret Nat clientSecret "db/creds"
        (Except.error (ClientError.APIError 500 []))
      = Except.error (VaultError.TransportError (ClientError.APIError 500 []))
    ∧ @Client.read_secret Nat clientSecret "db/creds"
        (Except.error (ClientError.APIError 404 []))
      = Except.error (VaultError.NotFound "secret" "db/creds")
    ∧ clientSecret.list_secrets "db/creds"
        (Except.error (ClientError.APIError 500 []))
      = Except.error (VaultError.TransportError (ClientError.APIError 500 [])) := by
  have h := @read_list_404_translation Nat clientSecret "db/creds" 0 [] 500 [] "x"
  exact ⟨h.2.2.1 (by decide), h.2.1, h.2.2.2.2.2.2.1 (by decide)⟩

/-- Claim C8, counterexample: `delete_latest` performs no 404 translation —
its `map_err(VaultError::from)` wraps a status-404 `APIError` as a
`TransportError`, not as the `NotFound{namespace, path}` the claim requires
(the claim's "same 404 rule as read_secret"). -/
theorem delete_404_not_translated :
    clientSecret.delete_latest "db/creds" (Except.error (ClientError.APIError 404 []))
      = Except.error (VaultError.TransportError (ClientError.APIError 404 []))
    ∧ clientSecret.delete_latest "db/creds" (Except.error (ClientError.APIError 404 []))
      ≠ Except.error (VaultError.NotFound "secret" "db/creds") := by
  refine ⟨rfl, ?_⟩
  intro h
  simp [Client.delete_latest, VaultError.fromClientError] at h

/-- Claim C8 as amended: `delete_latest` maps every transport error, a 404
not-found included, to `TransportError`; it never returns `NotFound`; and it
succeeds exactly when the transport's delete-latest call succeeded. -/
theorem delete_latest_amended (c : Client) (path : String)
    (resp : Except ClientError Unit) (ns p : String) :
    c.delete_latest path (Except.ok ()) = Except.ok ()
  ∧ (∀ e, c.delete_latest path (Except.error e)
      = Except.error (VaultError.TransportError e))
  ∧ c.delete_latest path resp ≠ Except.error (VaultError.NotFound ns p) := by
  refine ⟨rfl, fun e => rfl, ?_⟩
  cases resp with
  | ok u => simp [Client.delete_latest]
  | error e => simp [Client.delete_latest, VaultError.fromClientError]

/-- Witness for `delete_latest_amended` at the concrete client and path. -/
theorem delete_latest_amended_witness :
    clientSecret.delete_latest "db/creds" (Except.error (ClientError.Other "io"))
      = Except.error (VaultError.TransportError (ClientError.Other "io"))
    ∧ clientSecret.delete_latest "db/creds" (Except.ok ()) = Except.ok () := by
  have h := delete_latest_amended clientSecret "db/creds" (Except.ok ()) "secret" "db/creds"
  exact ⟨h.2.1 (ClientError.Other "io"), h.1⟩

/-- Claim C9: `write_secret` returns the transport's version metadata on
success and wraps every non-success transport response as `TransportError`,
never as `NotFound`. -/
theorem write_secret_transport_error {M : Type} (c : Client) (path : String)
    (m : M) (e : ClientError) (resp : Except ClientError M) (ns p : String) :
    c.write_secret path (Except.ok m) = Except.ok m
  ∧ c.write_secret path ((Except.error e) : Except ClientError M)
      = Except.error (VaultError.TransportError e)
  ∧ c.write_secret path resp ≠ Except.error (VaultError.NotFound ns p) := by
  refine ⟨rfl, rfl, ?_⟩
  cases resp with
  | ok u => simp [Client.write_secret]
  | error e' => simp [Client.write_secret, VaultError.fromClientError]

/-- Witness for `write_secret_transport_error` at the concrete client. -/
theorem write_secret_transport_error_witness :
    clientSecret.write_secret "db/creds" (Except.ok 7) = Except.ok 7
    ∧ clientSecret.write_secret "db/creds"
        ((Except.error (ClientError.Other "io")) : Except ClientError Nat)
      = Except.error (VaultError.TransportError (ClientError.Other "io")) := by
  have h := @write_secret_transport_error Nat clientSecret "db/creds" 7
    (ClientError.Other "io") (Except.ok 7) "secret" "db/creds"
  exact ⟨h.1, h.2.1⟩

/-- Claim C10: for every configuration, the transport settings built by the
constructor have TLS certificate verification disabled, no request timeout,
response wrapping disabled and the API version fixed at 1 — none of them is
read from the configuration bundle. -/
theorem settings_fixed_fields (config : Config) :
    (Client.new config).1.settings.verify = false
  ∧ (Client.new config).1.settings.timeout = none
  ∧ (Client.new config).1.settings.wrapping = false
  ∧ (Client.new config).1.settings.version = API_VERSION
  ∧ API_VERSION = 1 :=
  ⟨rfl, rfl, rfl, rfl, rfl⟩

/-- Claim C1 (code bug): `Client::new` executes the statement
`client.run_renewal(rx);` (line 57) where `run_renewal` is an async fn — the
returned future is neither awaited nor spawned, so it is dropped at the end
of the statement and its body (the `tokio::spawn` of the renewal loop, line
114) never runs.  Construction drives no future and zero renewal attempts are
ever made — although driving the very future `new` discards would spawn the
renewal loop with the configured interval and ttl. -/
theorem new_drops_renewal_future (config : Config) (t : Nat) :
    (Client.new config).2 = []
  ∧ attemptsAfterNew config t = 0
  ∧ RenewalFuture.drive ((Client.new config).1.run_renewal)
      = [FutureAction.spawnRenewalLoop
          (config.token_refresh_interval.getD TOKEN_REFRESH_INTERVAL)
          (config.token_increment_ttl.getD TOKEN_INCREMENT_TTL)] :=
  ⟨rfl, rfl, rfl⟩

/-- Any single drop leaves the lineage's channel fired: the drop either fired
it now or it was fired already. -/
lemma dropHandle_fires (m : Lineage) : (dropHandle m).chan.fired = true := by
  by_cases h : m.chan.fired = true <;> simp [dropHandle, oneshotSend, h]

/-- Claim C2, counterexample: in a lineage of 2 live handles over an unfired
channel, dropping ONE handle already fires the cancellation signal while the
other handle is still alive — `impl Drop for Client` sends on the shared
oneshot at every clone's drop, not only at the last handle's drop. -/
theorem drop_first_fires :
    (dropHandle { alive := 2, chan := { fired := false } }).alive = 1
    ∧ (dropHandle { alive := 2, chan := { fired := false } }).chan.fired = true := by
  decide

/-- Claim C2 as amended: the cancellation signal fires exactly once, but at
the FIRST drop of any handle of the lineage rather than the last: after any
drop the shared channel has fired; the first send attempt on an unfired
channel succeeds; a send attempt on an already-fired channel returns failure
and changes nothing (no panic, no deadlock — the send is total and
non-blocking); and after `n + 1` drops the channel has fired and `n + 1`
handles are gone. -/
theorem drop_semantics_amended (l : Lineage) (n : Nat) :
    (dropHandle l).chan.fired = true
  ∧ (l.chan.fired = false → (oneshotSend l.chan).2 = true)
  ∧ (l.chan.fired = true → oneshotSend l.chan = (l.chan, false))
  ∧ (dropN l (n + 1)).chan.fired = true
  ∧ (dropN l (n + 1)).alive = l.alive - (n + 1) := by
  refine ⟨dropHandle_fires l, ?_, ?_, ?_, ?_⟩
  · intro h
    simp [oneshotSend, h]
  · intro h
    simp [oneshotSend, h]
  · show (dropHandle (dropN l n)).chan.fired = true
    exact dropHandle_fires (dropN l n)
  · induction n with
    | zero => rfl
    | succ n ih =>
        show (dropHandle (dropN l (n + 1))).alive = l.alive - (n + 2)
        simp only [dropHandle]
        omega

/-- Witness for `drop_semantics_amended`: a first drop in a 3-handle lineage
fires the channel; a send on an already-fired channel fails with no change. -/
theorem drop_semantics_amended_witness :
    (dropHandle { alive := 3, chan := { fired := false } }).chan.fired = true
    ∧ oneshotSend { fired := true } = ({ fired := true }, false) := by
  have h1 := drop_semantics_amended { alive := 3, chan := { fired := false } } 0
  have h2 := drop_semantics_amended { alive := 1, chan := { fired := true } } 0
  exact ⟨h1.1, h2.2.2.1 rfl⟩
